import Mathlib

/-!
Verification of the shared middleware and service-discovery layer of the
AI_Planner microservices repository: a shallow embedding of
`services/shared/middleware.py` (rate limiting, circuit breaker) and
`services/shared/service_discovery.py` (service registry, event bus,
outbound circuit breaker), with theorems settling the spec's claims.

Time is modelled as natural-number seconds.  The Redis store is modelled
per component: a single key's content for the rate-limit counter and the
breaker record, an association list with expiry times for the registry,
and a plain list for the event log.  A stored JSON value that may fail to
decode is modelled by a `good _ | malformed` sum; an uncaught
`json.loads` failure is an `Except.error`.
-/

namespace AIPlanner

/-! ## Rate limiter (`RateLimitMiddleware.dispatch`)

The counter for the current fixed window key `rate_limit:{ip}:{minute}`
is `Option Nat` (`none` = key absent).  `retry_after` is computed from
wall-clock seconds exactly as `60 - (int(time.time()) % 60)`. -/

inductive RLOutcome : Type where
  | allowed : RLOutcome
  | rejected429 : Nat → RLOutcome
  deriving DecidableEq, Repr

/-- The `retry_after` field of the 429 response: `60 - (int(time.time()) % 60)`. -/
def retry_after (now : Nat) : Nat := 60 - now % 60

/-- One pass of `RateLimitMiddleware.dispatch` over the current window's
counter.  `R` is `requests_per_minute`, `now` the wall-clock second.
Absent counter: `setex(key, 60, 1)` and permit.  Counter `≥ R`: reject
with 429 and `retry_after`.  Otherwise `incr` and permit. -/
def rateLimitDispatch (R now : Nat) (counter : Option Nat) :
    RLOutcome × Option Nat :=
  match counter with
  | none => (RLOutcome.allowed, some 1)
  | some c =>
    if R ≤ c then (RLOutcome.rejected429 (retry_after now), some c)
    else (RLOutcome.allowed, some (c + 1))

/-- Counter state after `n` requests from one client inside one window,
starting from an absent key. -/
def rateLimitRun (R now : Nat) : Nat → Option Nat
  | 0 => none
  | n + 1 => (rateLimitDispatch R now (rateLimitRun R now n)).2

/-- Outcome of the `k`-th request (1-indexed) inside one window. -/
def rateLimitOutcome (R now k : Nat) : RLOutcome :=
  (rateLimitDispatch R now (rateLimitRun R now (k - 1))).1

/-- Numeric value stored in the window counter (0 when the key is absent). -/
def counterVal : Option Nat → Nat
  | none => 0
  | some c => c

theorem rateLimitRun_eq (R now : Nat) (hR : 1 ≤ R) (n : Nat) :
    rateLimitRun R now n = if n = 0 then none else some (min n R) := by
  induction n with
  | zero => rfl
  | succ n ih =>
    simp only [rateLimitRun, ih]
    rcases Nat.eq_zero_or_pos n with h0 | hpos
    · subst h0
      simp [rateLimitDispatch, Nat.min_eq_left hR]
    · have hne : n ≠ 0 := Nat.pos_iff_ne_zero.mp hpos
      simp only [if_neg hne, if_neg (Nat.succ_ne_zero n)]
      by_cases hc : R ≤ min n R
      · have hRn : R ≤ n := by
          rcases Nat.le_total n R with h | h
          · simpa [Nat.min_eq_left h] using hc
          · exact h
        simp [rateLimitDispatch, if_pos hc, Nat.min_eq_right hRn,
          Nat.min_eq_right (Nat.le_succ_of_le hRn)]
      · have hnR : n < R := by
          rcases Nat.le_total n R with h | h
          · rcases Nat.lt_or_ge n R with h2 | h2
            · exact h2
            · exact absurd (by simpa [Nat.min_eq_left h] using h2) hc
          · exact absurd (by simp [Nat.min_eq_right h]) hc
        simp only [rateLimitDispatch, if_neg hc, if_neg (Nat.not_le.mpr hnR),
          Option.some.injEq]
        omega

/-! ## Circuit breaker middleware (`CircuitBreakerMiddleware`)

The record stored at `circuit_breaker:{path}` is JSON
`{failures, state, last_failure}`.  A stored value is `good _` or
`malformed` (fails `json.loads`).  Each entry remembers the TTL of the
write that produced it (`none` for a plain `SET`, which persists the
key).  `dispatch` and `_record_failure` call `json.loads` without a
`try`, so a malformed record is an `Except.error`. -/

inductive CBState : Type where
  | closed : CBState
  | opened : CBState
  | halfOpen : CBState
  deriving DecidableEq, Repr

structure BreakerInfo : Type where
  failures : Nat
  state : CBState
  last_failure : Nat
  deriving DecidableEq, Repr

inductive StoredJson : Type where
  | good : BreakerInfo → StoredJson
  | malformed : StoredJson
  deriving DecidableEq, Repr

structure Entry : Type where
  val : StoredJson
  ttl : Option Nat
  deriving DecidableEq, Repr

/-- `CircuitBreakerMiddleware._record_failure`: on an existing record,
increment `failures` and stamp `last_failure`, then open the circuit
when `failures >= failure_threshold`; on an absent record, create
`{failures: 1, state: closed, last_failure: now}` with NO threshold
check.  Either way the write is `setex(key, recovery_timeout * 2, ...)`. -/
def recordFailure (threshold rt now : Nat) (store : Option Entry) :
    Except Unit (Option Entry) :=
  match store with
  | none =>
    Except.ok (some ⟨StoredJson.good ⟨1, CBState.closed, now⟩, some (rt * 2)⟩)
  | some e =>
    match e.val with
    | StoredJson.malformed => Except.error ()
    | StoredJson.good info =>
      let info1 : BreakerInfo :=
        { info with failures := info.failures + 1, last_failure := now }
      let info2 : BreakerInfo :=
        if threshold ≤ info1.failures then { info1 with state := CBState.opened }
        else info1
      Except.ok (some ⟨StoredJson.good info2, some (rt * 2)⟩)

/-- The pre-call check of `CircuitBreakerMiddleware.dispatch` (the reads
and writes performed before `call_next`).  `Except.ok none` is the 503
rejection; `Except.ok (some store1)` proceeds with the possibly updated
record.  An open record whose `last_failure + recovery_timeout` is still
in the future rejects; otherwise the record is rewritten to half-open
with a plain `SET` (dropping any TTL) and the call proceeds. -/
def beforeCall (rt now : Nat) (store : Option Entry) :
    Except Unit (Option (Option Entry)) :=
  match store with
  | none => Except.ok (some none)
  | some e =>
    match e.val with
    | StoredJson.malformed => Except.error ()
    | StoredJson.good info =>
      if info.state = CBState.opened then
        if now < info.last_failure + rt then
          Except.ok none
        else
          Except.ok (some (some ⟨StoredJson.good { info with state := CBState.halfOpen }, none⟩))
      else Except.ok (some store)

/-- Result of the inner application as seen by the middleware:
a response with a status code, or an exception raised by `call_next`. -/
inductive Upstream : Type where
  | resp : Nat → Upstream
  | exn : Upstream
  deriving DecidableEq, Repr

/-- What `CircuitBreakerMiddleware.dispatch` produces for the client. -/
inductive DispatchOut : Type where
  | rejected503 : DispatchOut
  | resp : Nat → DispatchOut
  | raised : DispatchOut
  deriving DecidableEq, Repr

/-- `CircuitBreakerMiddleware.dispatch`: pre-call check, then the inner
call.  A status `< 500` deletes the record when one existed at entry
(the original `breaker_data` variable is tested, not a re-read); a
status `≥ 500` or an exception records a failure (the exception is then
re-raised). -/
def dispatch (threshold rt now : Nat) (store : Option Entry) (up : Upstream) :
    Except Unit (DispatchOut × Option Entry) :=
  match beforeCall rt now store with
  | Except.error e => Except.error e
  | Except.ok none => Except.ok (DispatchOut.rejected503, store)
  | Except.ok (some store1) =>
    match up with
    | Upstream.exn =>
      match recordFailure threshold rt now store1 with
      | Except.error e => Except.error e
      | Except.ok store2 => Except.ok (DispatchOut.raised, store2)
    | Upstream.resp s =>
      if s < 500 then
        if store.isSome then Except.ok (DispatchOut.resp s, none)
        else Except.ok (DispatchOut.resp s, store1)
      else
        match recordFailure threshold rt now store1 with
        | Except.error e => Except.error e
        | Except.ok store2 => Except.ok (DispatchOut.resp s, store2)

/-- Breaker state denoted by a stored record: an absent key reads as
closed with zero failures, as does a record the readers skip. -/
def stateOf : Option Entry → CBState
  | none => CBState.closed
  | some e =>
    match e.val with
    | StoredJson.good info => info.state
    | StoredJson.malformed => CBState.closed

/-- Failure count denoted by a stored record (0 when absent). -/
def failCount : Option Entry → Nat
  | none => 0
  | some e =>
    match e.val with
    | StoredJson.good info => info.failures
    | StoredJson.malformed => 0

/-- Store contents after `n` consecutive recorded failures starting from
an absent record, the `i`-th failure (0-indexed) happening at second
`time i`. -/
def failuresFrom (threshold rt : Nat) (time : Nat → Nat) : Nat → Except Unit (Option Entry)
  | 0 => Except.ok none
  | n + 1 =>
    match failuresFrom threshold rt time n with
    | Except.error e => Except.error e
    | Except.ok st => recordFailure threshold rt (time n) st

/-- A constant failure clock, for concrete runs. -/
def zeroClock : Nat → Nat := fun _ => 0

/-! ## Outbound circuit breaker (`service_discovery.CircuitBreaker`)

The per-service record is JSON `{failures, state, opened_at?}`; there is
no half-open state at this granularity.  `is_open` and `record_failure`
both wrap `json.loads` in a `try`, treating a malformed record as a
fresh one; `record_failure` checks the threshold on BOTH the existing
and the fresh branch and writes with `setex(key, recovery_timeout, ...)`
(1x the recovery timeout). -/

structure SvcBreakerInfo : Type where
  failures : Nat
  state : CBState
  opened_at : Option Nat
  deriving DecidableEq, Repr

inductive SvcStored : Type where
  | good : SvcBreakerInfo → SvcStored
  | malformed : SvcStored
  deriving DecidableEq, Repr

structure SvcEntry : Type where
  val : SvcStored
  ttl : Option Nat
  deriving DecidableEq, Repr

/-- `CircuitBreaker.is_open`: true only for a record that decodes and
has `state == "open"`; a decode failure or absent key reads as closed. -/
def svcIsOpen (store : Option SvcEntry) : Bool :=
  match store with
  | some e =>
    match e.val with
    | SvcStored.good info => decide (info.state = CBState.opened)
    | SvcStored.malformed => false
  | none => false

/-- `CircuitBreaker.record_success`: unconditionally deletes the record. -/
def svcRecordSuccess (_ : Option SvcEntry) : Option SvcEntry := none

/-- `CircuitBreaker.record_failure`: increment (or initialize to
`{failures: 1, state: closed}` on absence or decode failure), then open
with `opened_at := now` when `failures >= failure_threshold`; write with
TTL `recovery_timeout`. -/
def svcRecordFailure (threshold rt now : Nat) (store : Option SvcEntry) :
    Option SvcEntry :=
  let info : SvcBreakerInfo :=
    match store with
    | some e =>
      match e.val with
      | SvcStored.good i => { i with failures := i.failures + 1 }
      | SvcStored.malformed => ⟨1, CBState.closed, none⟩
    | none => ⟨1, CBState.closed, none⟩
  let info2 : SvcBreakerInfo :=
    if threshold ≤ info.failures then
      { info with state := CBState.opened, opened_at := some now }
    else info
  some ⟨SvcStored.good info2, some rt⟩

/-! ## Service registry (`service_discovery.ServiceRegistry`)

Keys are strings; the per-key value is the decoded service record
together with its expiry second (`setex` with the registry's 30-second
TTL).  A `get` at time `now` sees the value only while `now` is before
the expiry second.  Per-name membership lives in Redis sets, modelled as
an association list from set key to member list.  (The registry only
ever stores JSON it just built, so the `json.JSONDecodeError` branch of
`discover_service` carries no reachable content and entries hold decoded
records directly.) -/

structure ServiceInfo : Type where
  service_name : String
  host : String
  port : Nat
  health_check_url : String
  registered_at : Nat
  deriving DecidableEq, Repr

structure RegistryState : Type where
  entries : List (String × ServiceInfo × Nat)
  sets : List (String × List String)
  deriving DecidableEq, Repr

def emptyRegistry : RegistryState := ⟨[], []⟩

/-- `GET key` at time `now`: an entry past its expiry second is gone. -/
def kvGet (now : Nat) (entries : List (String × ServiceInfo × Nat))
    (k : String) : Option ServiceInfo :=
  match entries.find? (fun p => p.1 == k) with
  | some (_, info, expiry) => if now < expiry then some info else none
  | none => none

/-- `SETEX key ttl value`: overwrite, with a fresh expiry second. -/
def kvSetex (entries : List (String × ServiceInfo × Nat)) (k : String)
    (info : ServiceInfo) (expiry : Nat) : List (String × ServiceInfo × Nat) :=
  (k, info, expiry) :: entries.filter (fun p => ¬(p.1 == k))

/-- `SMEMBERS key`. -/
def smembers (sets : List (String × List String)) (k : String) : List String :=
  match sets.find? (fun p => p.1 == k) with
  | some (_, ms) => ms
  | none => []

/-- `SADD key member`. -/
def sadd (sets : List (String × List String)) (k member : String) :
    List (String × List String) :=
  match sets.find? (fun p => p.1 == k) with
  | some _ =>
    sets.map (fun p =>
      if p.1 == k then
        (p.1, if p.2.contains member then p.2 else p.2 ++ [member])
      else p)
  | none => (k, [member]) :: sets

/-- `SREM key member`. -/
def srem (sets : List (String × List String)) (k member : String) :
    List (String × List String) :=
  sets.map (fun p =>
    if p.1 == k then (p.1, p.2.filter (fun m => ¬(m == member))) else p)

/-- Registration TTL: `self.ttl = 30`. -/
def registryTTL : Nat := 30

def serviceKey (name host : String) (port : Nat) : String :=
  "service:" ++ name ++ ":" ++ host ++ ":" ++ toString port

/-- `ServiceRegistry.register_service`: `setex` the record under
`service:{name}:{host}:{port}` with the 30s TTL and `sadd` the key into
`services:{name}`. -/
def register_service (now : Nat) (st : RegistryState) (name host : String)
    (port : Nat) (health_check_url : Option String) : RegistryState :=
  let info : ServiceInfo :=
    ⟨name, host, port,
      health_check_url.getD ("http://" ++ host ++ ":" ++ toString port ++ "/health"),
      now⟩
  let key := serviceKey name host port
  { entries := kvSetex st.entries key info (now + registryTTL)
  , sets := sadd st.sets ("services:" ++ name) key }

/-- `ServiceRegistry.discover_service`: walk the membership set; a key
whose record is still live is collected, a key whose record has expired
is `srem`-ed from the set. -/
def discover_service (now : Nat) (st : RegistryState) (name : String) :
    List ServiceInfo × RegistryState :=
  let setKey := "services:" ++ name
  (smembers st.sets setKey).foldl
    (fun acc key =>
      match kvGet now acc.2.entries key with
      | some info => (acc.1 ++ [info], acc.2)
      | none => (acc.1, { acc.2 with sets := srem acc.2.sets setKey key }))
    ([], st)

/-! ## Event bus (`service_discovery.EventBus`)

The event log is the Redis list `event_log`, newest first (`LPUSH`).
Stored items are `good _` or `bad` (fails `json.loads`; skipped with a
log line by `get_event_history`).  `LRANGE key 0 stop` and
`LTRIM key 0 stop` share the same range semantics: a negative `stop`
counts from the end of the list. -/

structure EventData : Type where
  event_type : String
  source_service : Option String
  timestamp : Nat
  deriving DecidableEq, Repr

inductive StoredEvent : Type where
  | good : EventData → StoredEvent
  | bad : StoredEvent
  deriving DecidableEq, Repr

/-- Redis `LRANGE l 0 stop` (also the keep-range of `LTRIM l 0 stop`):
a negative `stop` is taken from the end, and the kept elements are
indices `0 .. stop` inclusive. -/
def lrange0 {α : Type} (l : List α) (stop : Int) : List α :=
  let s : Int := if stop < 0 then (l.length : Int) + stop else stop
  if s < 0 then [] else l.take (s.toNat + 1)

/-- `EventBus.publish_event`'s effect on the log:
`lpush("event_log", ...)` then `ltrim("event_log", 0, 1000)`. -/
def publish_event (log : List StoredEvent) (e : EventData) : List StoredEvent :=
  lrange0 (StoredEvent.good e :: log) 1000

def dummyEvent : EventData := ⟨"evt", none, 0⟩

/-- Log after publishing `n` events into an initially empty log. -/
def publishN : Nat → List StoredEvent
  | 0 => []
  | n + 1 => publish_event (publishN n) dummyEvent

/-- The decoding loop of `get_event_history`: malformed items are
skipped, order preserved. -/
def decodeEvents (l : List StoredEvent) : List EventData :=
  l.filterMap (fun se =>
    match se with
    | StoredEvent.good e => some e
    | StoredEvent.bad => none)

/-- `EventBus.get_event_history(limit)`:
`lrange("event_log", 0, limit - 1)` then decode. -/
def get_event_history (limit : Int) (log : List StoredEvent) : List EventData :=
  decodeEvents (lrange0 log (limit - 1))

/-! ## Theorems -/

/-- Claim C2 counterexample: with a configured limit of 0, the claim
says the first (= R+1-th) request in a window must be rejected with 429,
but the dispatch path for an absent counter initializes the counter and
permits unconditionally, so the first request is allowed. -/
theorem C2_counterexample :
    rateLimitOutcome 0 0 1 = RLOutcome.allowed := rfl

/-- Claim C2 (amended: for limits R ≥ 1): within one fixed 60-second
window, each of the first R requests from a client is permitted, the
(R+1)-th is rejected with HTTP 429, and the attached `retry_after` is
the number of seconds to the window boundary, lying in [1,60] (hence in
the claimed [0,60]). -/
theorem C2_rate_limit_window (R now k : Nat) (hR : 1 ≤ R) (hk1 : 1 ≤ k)
    (hkR : k ≤ R) :
    rateLimitOutcome R now k = RLOutcome.allowed ∧
    rateLimitOutcome R now (R + 1) = RLOutcome.rejected429 (retry_after now) ∧
    1 ≤ retry_after now ∧ retry_after now ≤ 60 := by
  have hmod : now % 60 < 60 := Nat.mod_lt now (by decide)
  refine ⟨?_, ?_, ?_, ?_⟩
  · unfold rateLimitOutcome
    rcases Nat.eq_or_lt_of_le hk1 with h1 | h2
    · rw [← h1]
      simp [rateLimitRun, rateLimitDispatch]
    · have hne : k - 1 ≠ 0 := by omega
      rw [rateLimitRun_eq R now hR (k - 1), if_neg hne]
      have hlt : ¬ R ≤ k - 1 := by omega
      simp [rateLimitDispatch, if_neg hlt]
  · unfold rateLimitOutcome
    have hne : R + 1 - 1 = R := by omega
    rw [hne, rateLimitRun_eq R now hR R, if_neg (by omega : R ≠ 0)]
    simp [rateLimitDispatch, Nat.min_self]
  · unfold retry_after; omega
  · unfold retry_after; omega

/-- Claim C2 witness at R = 2, now = 5: the third request in the window
is rejected with `retry_after` 55. -/
theorem C2_rate_limit_window_witness :
    rateLimitOutcome 2 5 (2 + 1) = RLOutcome.rejected429 (retry_after 5) :=
  (C2_rate_limit_window 2 5 1 (by decide) (by decide) (by decide)).2.1

/-- Claim C7 counterexample: with a configured limit of 0, the first
request in a window stores counter value 1, which exceeds the limit —
the initialization path does not consult the limit. -/
theorem C7_counterexample :
    (rateLimitDispatch 0 0 none).2 = some 1 ∧
    ¬ counterVal (rateLimitDispatch 0 0 none).2 ≤ 0 := by
  exact ⟨rfl, by decide⟩

/-- Claim C7 (amended: for limits R ≥ 1): one dispatch step never
decreases the stored window counter, and preserves the invariant that
the counter never exceeds the configured limit (the check precedes the
increment, and a rejected request performs no increment). -/
theorem C7_counter_invariant (R now : Nat) (c : Option Nat) (hR : 1 ≤ R)
    (hc : counterVal c ≤ R) :
    counterVal c ≤ counterVal (rateLimitDispatch R now c).2 ∧
    counterVal (rateLimitDispatch R now c).2 ≤ R := by
  cases c with
  | none => simpa [rateLimitDispatch, counterVal] using hR
  | some n =>
    by_cases h : R ≤ n
    · simp [rateLimitDispatch, if_pos h, counterVal] at hc ⊢
      exact hc
    · simp [rateLimitDispatch, if_neg h, counterVal] at hc ⊢
      omega

/-- Claim C7 witness at R = 1 on an absent counter: the stored counter
after the step stays within the limit. -/
theorem C7_counter_invariant_witness :
    counterVal (rateLimitDispatch 1 0 none).2 ≤ 1 :=
  (C7_counter_invariant 1 0 none (by decide) (by decide)).2

/-- Shape of the stored record after `n ≥ 1` consecutive recorded
failures from an absent record: `failures = n`, `last_failure` is the
time of the last failure, and the circuit is open exactly when both
`n ≥ 2` (the fresh-record branch performs no threshold check) and
`n ≥ threshold`. -/
theorem failuresFrom_eq (threshold rt : Nat) (time : Nat → Nat) (n : Nat)
    (hn : 1 ≤ n) :
    failuresFrom threshold rt time n =
      Except.ok (some ⟨StoredJson.good
        ⟨n, if 2 ≤ n ∧ threshold ≤ n then CBState.opened else CBState.closed,
          time (n - 1)⟩, some (rt * 2)⟩) := by
  induction n with
  | zero => omega
  | succ n ih =>
    rcases Nat.eq_zero_or_pos n with h0 | hpos
    · subst h0
      simp [failuresFrom, recordFailure]
    · rw [failuresFrom, ih hpos]
      simp only [recordFailure, Nat.succ_sub_one]
      by_cases ht : threshold ≤ n + 1
      · simp only [if_pos ht, if_pos (by omega : 2 ≤ n + 1 ∧ threshold ≤ n + 1)]
      · have hc1 : ¬ (2 ≤ n ∧ threshold ≤ n) := by omega
        have hc2 : ¬ (2 ≤ n + 1 ∧ threshold ≤ n + 1) := by omega
        simp only [if_neg hc1, if_neg ht, if_neg hc2]

/-- Claim C1 counterexample: with `failure_threshold = 1`, the claim
says that after exactly one recorded failure the next call is rejected
with 503, but the fresh-record branch of `_record_failure` performs no
threshold check and leaves the state closed, so the next call proceeds
(here returning the upstream 200 and deleting the record). -/
theorem C1_counterexample :
    failuresFrom 1 60 zeroClock 1 =
      Except.ok (some ⟨StoredJson.good ⟨1, CBState.closed, 0⟩, some 120⟩) ∧
    dispatch 1 60 0 (some ⟨StoredJson.good ⟨1, CBState.closed, 0⟩, some 120⟩)
        (Upstream.resp 200) =
      Except.ok (DispatchOut.resp 200, none) := ⟨rfl, rfl⟩

/-- Claim C1 (amended: for thresholds ≥ 2): starting from an absent
record, `threshold - 1` consecutive failures leave the circuit closed;
after exactly `threshold` consecutive failures the record is open with
`failures = threshold`, and any call before `last_failure +
recovery_timeout` is rejected with 503 leaving the record untouched;
once `recovery_timeout` has elapsed, the pre-call check rewrites the
record to half-open and proceeds, and a successful probe (status < 500)
deletes the record, leaving the denoted state closed with 0 failures. -/
theorem C1_breaker_lifecycle (threshold rt : Nat) (time : Nat → Nat)
    (now1 now2 s : Nat) (h2 : 2 ≤ threshold)
    (hreject : now1 < time (threshold - 1) + rt)
    (hrecover : time (threshold - 1) + rt ≤ now2) (hs : s < 500) :
    failuresFrom threshold rt time (threshold - 1) =
      Except.ok (some ⟨StoredJson.good
        ⟨threshold - 1, CBState.closed, time (threshold - 1 - 1)⟩, some (rt * 2)⟩) ∧
    failuresFrom threshold rt time threshold =
      Except.ok (some ⟨StoredJson.good
        ⟨threshold, CBState.opened, time (threshold - 1)⟩, some (rt * 2)⟩) ∧
    dispatch threshold rt now1
        (some ⟨StoredJson.good ⟨threshold, CBState.opened, time (threshold - 1)⟩,
          some (rt * 2)⟩) (Upstream.resp s) =
      Except.ok (DispatchOut.rejected503,
        some ⟨StoredJson.good ⟨threshold, CBState.opened, time (threshold - 1)⟩,
          some (rt * 2)⟩) ∧
    beforeCall rt now2
        (some ⟨StoredJson.good ⟨threshold, CBState.opened, time (threshold - 1)⟩,
          some (rt * 2)⟩) =
      Except.ok (some (some ⟨StoredJson.good
        ⟨threshold, CBState.halfOpen, time (threshold - 1)⟩, none⟩)) ∧
    dispatch threshold rt now2
        (some ⟨StoredJson.good ⟨threshold, CBState.opened, time (threshold - 1)⟩,
          some (rt * 2)⟩) (Upstream.resp s) =
      Except.ok (DispatchOut.resp s, none) ∧
    stateOf (none : Option Entry) = CBState.closed ∧
    failCount (none : Option Entry) = 0 := by
  have hbefore1 : beforeCall rt now1
      (some ⟨StoredJson.good ⟨threshold, CBState.opened, time (threshold - 1)⟩,
        some (rt * 2)⟩) = Except.ok none := by
    simp [beforeCall, if_pos hreject]
  have hbefore2 : beforeCall rt now2
      (some ⟨StoredJson.good ⟨threshold, CBState.opened, time (threshold - 1)⟩,
        some (rt * 2)⟩) =
      Except.ok (some (some ⟨StoredJson.good
        ⟨threshold, CBState.halfOpen, time (threshold - 1)⟩, none⟩)) := by
    simp [beforeCall, if_neg (by omega : ¬ now2 < time (threshold - 1) + rt)]
  refine ⟨?_, ?_, ?_, hbefore2, ?_, rfl, rfl⟩
  · rw [failuresFrom_eq threshold rt time (threshold - 1) (by omega)]
    simp only [if_neg (by omega : ¬ (2 ≤ threshold - 1 ∧ threshold ≤ threshold - 1))]
  · rw [failuresFrom_eq threshold rt time threshold (by omega)]
    simp only [if_pos (by omega : 2 ≤ threshold ∧ threshold ≤ threshold)]
  · unfold dispatch
    rw [hbefore1]
  · unfold dispatch
    rw [hbefore2]
    simp [if_pos hs]

/-- Claim C1 witness at threshold = 2, recovery_timeout = 1, both
failures at second 0: the call at second 0 is rejected with 503. -/
theorem C1_breaker_lifecycle_witness :
    dispatch 2 1 0
        (some ⟨StoredJson.good ⟨2, CBState.opened, zeroClock 1⟩, some (1 * 2)⟩)
        (Upstream.resp 200) =
      Except.ok (DispatchOut.rejected503,
        some ⟨StoredJson.good ⟨2, CBState.opened, zeroClock 1⟩, some (1 * 2)⟩) :=
  (C1_breaker_lifecycle 2 1 zeroClock 0 2 200 (by decide) (by decide)
    (by decide) (by decide)).2.2.1

/-- Claim C4 counterexample: a probe failure while half-open with a
previous count of 2 stores `failures = 3`, not the claimed reset to 1 —
`_record_failure` increments the existing count. -/
theorem C4_counterexample :
    recordFailure 2 60 5 (some ⟨StoredJson.good ⟨2, CBState.halfOpen, 0⟩, none⟩) =
      Except.ok (some ⟨StoredJson.good ⟨3, CBState.opened, 5⟩, some 120⟩) ∧
    (3 : Nat) ≠ 1 := ⟨rfl, by decide⟩

/-- Claim C4 (amended): a single failure recorded while the breaker is
half-open returns the state to open and sets `last_failure` to the
current time, but the failure count accumulates to the previous count
plus one rather than resetting to 1. -/
theorem C4_halfopen_failure (threshold rt now : Nat) (i : BreakerInfo)
    (ttl : Option Nat) (hst : i.state = CBState.halfOpen)
    (hf : threshold ≤ i.failures + 1) :
    recordFailure threshold rt now (some ⟨StoredJson.good i, ttl⟩) =
      Except.ok (some ⟨StoredJson.good ⟨i.failures + 1, CBState.opened, now⟩,
        some (rt * 2)⟩) := by
  simp [recordFailure, if_pos hf]

/-- Claim C4 witness: a probe failure at threshold 3 with two prior
failures opens the circuit with count 3. -/
theorem C4_halfopen_failure_witness :
    recordFailure 3 60 7 (some ⟨StoredJson.good ⟨2, CBState.halfOpen, 1⟩, none⟩) =
      Except.ok (some ⟨StoredJson.good ⟨2 + 1, CBState.opened, 7⟩, some (60 * 2)⟩) :=
  C4_halfopen_failure 3 60 7 ⟨2, CBState.halfOpen, 1⟩ none rfl (by decide)

/-- Claim C5 counterexample: the inbound middleware's pre-call check
calls `json.loads` with no `try`, so a malformed stored record makes
`dispatch` propagate the decode exception instead of completing
normally. -/
theorem C5_counterexample :
    dispatch 5 60 0 (some ⟨StoredJson.malformed, none⟩) (Upstream.resp 200) =
      Except.error () := rfl

/-- Claim C5 (amended): the outbound breaker's `is_open` and
`record_failure` treat a malformed record exactly as an absent one, but
the inbound middleware's pre-call check and its `_record_failure`
propagate the decode failure as an exception. -/
theorem C5_malformed_state (threshold rt now : Nat) (ttl : Option Nat)
    (ttl2 : Option Nat) :
    svcIsOpen (some ⟨SvcStored.malformed, ttl2⟩) = svcIsOpen none ∧
    svcRecordFailure threshold rt now (some ⟨SvcStored.malformed, ttl2⟩) =
      svcRecordFailure threshold rt now none ∧
    beforeCall rt now (some ⟨StoredJson.malformed, ttl⟩) = Except.error () ∧
    recordFailure threshold rt now (some ⟨StoredJson.malformed, ttl⟩) =
      Except.error () :=
  ⟨rfl, rfl, rfl, rfl⟩

/-- Claim C6: registering a service into an empty registry and
immediately discovering the name returns exactly one record whose host
and port match the registration; once the 30-second TTL has lapsed,
discovery returns nothing and that same call prunes the stale key from
the per-name membership set. -/
theorem C6_registry_roundtrip (t t2 : Nat) (name host : String) (port : Nat)
    (h : t + registryTTL ≤ t2) :
    ((discover_service t (register_service t emptyRegistry name host port none)
        name).1.map (fun i => (i.host, i.port)) = [(host, port)]) ∧
    (discover_service t2 (register_service t emptyRegistry name host port none)
        name).1 = [] ∧
    smembers (discover_service t2
        (register_service t emptyRegistry name host port none) name).2.sets
      ("services:" ++ name) = [] := by
  have h30 : t + 30 ≤ t2 := h
  have hlive : t < t + 30 := by omega
  have hdead : ¬ t2 < t + 30 := by omega
  refine ⟨?_, ?_, ?_⟩ <;>
    simp [discover_service, register_service, emptyRegistry, kvSetex, kvGet,
      sadd, smembers, srem, registryTTL, if_pos hlive, if_neg hdead]

/-- Claim C6 witness: a registration at second 0 is invisible to a
discovery at second 30. -/
theorem C6_registry_roundtrip_witness :
    (discover_service 30 (register_service 0 emptyRegistry "auth" "h" 8000 none)
      "auth").1 = [] :=
  (C6_registry_roundtrip 0 30 "auth" "h" 8000 (by decide)).2.1

/-- Claim C8 counterexample: at the per-service granularity there is no
half-open state — with threshold 1, one `record_failure` opens the
circuit and a subsequent `record_success` deletes the record, reading as
closed: the state moves from open directly to closed without ever being
half-open. -/
theorem C8_counterexample :
    svcRecordFailure 1 60 0 none =
      some ⟨SvcStored.good ⟨1, CBState.opened, some 0⟩, some 60⟩ ∧
    svcIsOpen (some ⟨SvcStored.good ⟨1, CBState.opened, some 0⟩, some 60⟩) = true ∧
    svcRecordSuccess (some ⟨SvcStored.good ⟨1, CBState.opened, some 0⟩, some 60⟩) =
      none ∧
    svcIsOpen none = false := ⟨rfl, rfl, rfl, rfl⟩

/-- Claim C8 (amended, route-level middleware only): whenever a dispatch
starts from an open record and ends with the denoted state closed, its
pre-call phase proceeded and rewrote the record to half-open first — the
middleware never moves from open to closed without passing through
half-open.  (The per-service breaker has no half-open state; see the
counterexample.) -/
theorem C8_monotone_open_episode (threshold rt now : Nat) (store : Option Entry)
    (up : Upstream) (out : DispatchOut) (store2 : Option Entry)
    (hopen : stateOf store = CBState.opened)
    (hd : dispatch threshold rt now store up = Except.ok (out, store2))
    (hclosed : stateOf store2 = CBState.closed) :
    Except.map (Option.map stateOf) (beforeCall rt now store) =
      Except.ok (some CBState.halfOpen) := by
  match store with
  | none => simp [stateOf] at hopen
  | some ⟨StoredJson.malformed, ttl⟩ => simp [stateOf] at hopen
  | some ⟨StoredJson.good i, ttl⟩ =>
    have hio : i.state = CBState.opened := hopen
    by_cases hlt : now < i.last_failure + rt
    · have hb : beforeCall rt now (some ⟨StoredJson.good i, ttl⟩) =
          Except.ok none := by
        simp [beforeCall, hio, if_pos hlt]
      have hdisp : dispatch threshold rt now (some ⟨StoredJson.good i, ttl⟩) up =
          Except.ok (DispatchOut.rejected503, some ⟨StoredJson.good i, ttl⟩) := by
        unfold dispatch
        rw [hb]
      rw [hdisp] at hd
      have hstore : store2 = some ⟨StoredJson.good i, ttl⟩ := by
        have := (Except.ok.injEq _ _).mp hd
        exact (Prod.mk.injEq _ _ _ _ |>.mp this).2.symm
      rw [hstore] at hclosed
      have : i.state = CBState.closed := hclosed
      rw [hio] at this
      exact absurd this (by decide)
    · rw [show beforeCall rt now (some ⟨StoredJson.good i, ttl⟩) =
          Except.ok (some (some ⟨StoredJson.good
            { i with state := CBState.halfOpen }, none⟩)) from by
        simp [beforeCall, hio, if_neg hlt]]
      rfl

/-- Claim C8 witness: a dispatch from an open record whose recovery
timeout has elapsed proceeds through a half-open rewrite. -/
theorem C8_monotone_open_episode_witness :
    Except.map (Option.map stateOf)
        (beforeCall 1 2 (some ⟨StoredJson.good ⟨2, CBState.opened, 0⟩, some 2⟩)) =
      Except.ok (some CBState.halfOpen) :=
  C8_monotone_open_episode 2 1 2
    (some ⟨StoredJson.good ⟨2, CBState.opened, 0⟩, some 2⟩)
    (Upstream.resp 200) (DispatchOut.resp 200) none rfl rfl rfl

/-- Claim C9 counterexample: the outbound breaker's `record_failure`
writes its record with `setex(key, recovery_timeout, ...)` — a TTL of
one recovery timeout, not the claimed two. -/
theorem C9_counterexample :
    svcRecordFailure 5 60 0 none =
      some ⟨SvcStored.good ⟨1, CBState.closed, none⟩, some 60⟩ ∧
    some (60 : Nat) ≠ some (60 * 2) := ⟨rfl, by decide⟩

/-- Claim C9 (amended): every failure write at the route granularity
carries TTL `2 * recovery_timeout`, but every failure write at the
service granularity carries TTL `recovery_timeout`. -/
theorem C9_breaker_ttl (threshold rt now : Nat) (store : Option Entry)
    (store2 : Option SvcEntry) (e : Entry) (e2 : SvcEntry)
    (h1 : recordFailure threshold rt now store = Except.ok (some e))
    (h2 : svcRecordFailure threshold rt now store2 = some e2) :
    e.ttl = some (rt * 2) ∧ e2.ttl = some rt := by
  constructor
  · match store with
    | none =>
      simp only [recordFailure, Except.ok.injEq, Option.some.injEq] at h1
      rw [← h1]
    | some ⟨StoredJson.malformed, ttl⟩ => simp [recordFailure] at h1
    | some ⟨StoredJson.good info, ttl⟩ =>
      simp only [recordFailure, Except.ok.injEq, Option.some.injEq] at h1
      rw [← h1]
  · unfold svcRecordFailure at h2
    simp only [Option.some.injEq] at h2
    rw [← h2]

/-- Claim C9 witness: concrete failure writes at both granularities with
recovery timeout 60 carry TTLs 120 and 60 respectively. -/
theorem C9_breaker_ttl_witness :
    (Entry.mk (StoredJson.good ⟨1, CBState.closed, 7⟩) (some (60 * 2))).ttl =
      some (60 * 2) ∧
    (SvcEntry.mk (SvcStored.good ⟨1, CBState.closed, none⟩) (some 60)).ttl =
      some 60 :=
  C9_breaker_ttl 5 60 7 none none
    ⟨StoredJson.good ⟨1, CBState.closed, 7⟩, some (60 * 2)⟩
    ⟨SvcStored.good ⟨1, CBState.closed, none⟩, some 60⟩ rfl rfl

/-- One publish keeps the range `0..1000` of the list after the push:
at most 1001 items, trimmed on every append. -/
theorem publish_event_take (log : List StoredEvent) (e : EventData) :
    publish_event log e = (StoredEvent.good e :: log).take 1001 := rfl

/-- Log length after `n` publishes into an empty log: `min n 1001`. -/
theorem publishN_length (n : Nat) : (publishN n).length = min n 1001 := by
  induction n with
  | zero => rfl
  | succ n ih =>
    rw [publishN, publish_event_take, List.length_take, List.length_cons, ih]
    omega

/-- Claim C3 (code bug): `ltrim("event_log", 0, 1000)` keeps indices 0
through 1000 inclusive — 1001 entries — although the adjacent comment
says "Keep last 1000 events": publishing 1001 events retains all 1001,
not the claimed 1000. -/
theorem C3_eventlog_off_by_one :
    (publishN 1001).length = 1001 ∧ (1001 : Nat) ≠ 1000 := by
  refine ⟨?_, by decide⟩
  rw [publishN_length, Nat.min_self]

/-- Claim C10: a `get_event_history` call with `limit = 0` issues
`lrange(log, 0, -1)`, whose negative end index denotes the last element,
so the entire stored log is returned (and then decoded) — the result is
bounded by `limit` only for `limit ≥ 1`. -/
theorem C10_history_limit_zero (log : List StoredEvent) :
    lrange0 log ((0 : Int) - 1) = log ∧
    get_event_history 0 log = decodeEvents log := by
  have h : lrange0 log ((0 : Int) - 1) = log := by
    match log with
    | [] => rfl
    | x :: xs =>
      simp only [lrange0, List.length_cons]
      rw [if_pos (by decide : ((0 : Int) - 1) < 0)]
      have hcast : ((xs.length + 1 : Nat) : Int) + (0 - 1) = (xs.length : Int) := by
        push_cast
        ring
      rw [hcast, if_neg (by omega : ¬ (xs.length : Int) < 0)]
      have htn : ((xs.length : Int)).toNat = xs.length := Int.toNat_natCast xs.length
      rw [htn]
      exact List.take_length (x :: xs)
  refine ⟨h, ?_⟩
  show decodeEvents (lrange0 log ((0 : Int) - 1)) = decodeEvents log
  rw [h]

end AIPlanner
